import Mathlib

/-!
Verification of the AI-call resilience and response-normalization layer of the
fitness-assistant repository (convex/messages.ts, convex/calories.ts, convex/plans.ts).

The TypeScript source is shallowly embedded:
* JavaScript runtime values produced by JSON.parse are modelled by the `Json`
  inductive type, extended with an `undefined` constructor for JavaScript's
  `undefined` (the result of accessing a missing property).  Model restriction:
  numbers are integers (`Int`); the source never relies on fractional values.
* Functions that can throw (`JSON.parse`, `.map` on a non-array, property
  access on `null`/`undefined`) return `Except String`.
* The asynchronous retry loop `retryWithBackoff` is modelled as a pure function
  of a call script (the result of each successive invocation of the wrapped
  function); the performed `setTimeout` waits are collected in a list.
-/

set_option autoImplicit false

namespace FitnessApp

/-- JavaScript runtime values as they occur in this codebase: the JSON value
universe plus `undefined`.  Numbers are restricted to integers. -/
inductive Json where
  | undefined : Json
  | null : Json
  | bool : Bool → Json
  | num : Int → Json
  | str : String → Json
  | arr : List Json → Json
  | obj : List (String × Json) → Json

/-- JavaScript truthiness: `undefined`, `null`, `false`, `0` and `""` are falsy;
objects and arrays are always truthy. -/
def jsTruthy : Json → Bool
  | .undefined => false
  | .null => false
  | .bool b => b
  | .num n => n != 0
  | .str s => s != ""
  | .arr _ => true
  | .obj _ => true

/-- `a || b` on JavaScript values: `a` when truthy, otherwise `b`. -/
def jsOr (a b : Json) : Json :=
  if jsTruthy a then a else b

/-- First-match lookup in an object's field list (`undefined` when absent). -/
def objGetFields : List (String × Json) → String → Json
  | [], _ => .undefined
  | (a, b) :: t, k => if a = k then b else objGetFields t k

/-- JavaScript property access `o.k` on a value that is not `null`/`undefined`:
yields the field for objects and `undefined` for every other value. -/
def objGet : Json → String → Json
  | .obj fs, k => objGetFields fs k
  | _, _ => .undefined

/-- Optional chaining `o?.k`: `undefined` when `o` is `null`/`undefined`,
otherwise plain property access. -/
def optGet (o : Json) (k : String) : Json :=
  match o with
  | .null => .undefined
  | .undefined => .undefined
  | v => objGet v k

/-- Write a field, replacing the first existing occurrence in place (preserving
JavaScript's key order on assignment / spread-override) or appending it. -/
def setKey : List (String × Json) → String → Json → List (String × Json)
  | [], k, v => [(k, v)]
  | (a, b) :: t, k, v => if a = k then (k, v) :: t else (a, b) :: setKey t k v

/-- The fields contributed by an object spread `{...o}`: an object's fields,
nothing for other values. -/
def spreadFields : Json → List (String × Json)
  | .obj fs => fs
  | _ => []

/-- Substring test on char lists, the semantics of `String.prototype.includes`. -/
def containsSubL (pat : List Char) : List Char → Bool
  | [] => pat.isEmpty
  | c :: rest => pat.isPrefixOf (c :: rest) || containsSubL pat rest

/-- `s.includes(pat)` from JavaScript. -/
def containsSub (s pat : String) : Bool :=
  containsSubL pat.toList s.toList

/-- The overload classification used throughout the source:
`errorMessage.includes("overloaded") || errorMessage.includes("503")`. -/
def isOverloaded (msg : String) : Bool :=
  containsSub msg "overloaded" || containsSub msg "503"

/-- Observable outcome of one `retryWithBackoff` run: the returned or thrown
value, the backoff waits performed (in ms, in order), and how many times the
wrapped function was invoked. -/
structure RetryOut (α : Type) where
  result : Except String α
  delays : List Nat
  calls : Nat

/-- The retry loop body of `retryWithBackoff` from attempt `i` with `fuel`
remaining iterations (`fuel = maxRetries - i`).  An attempt that fails with an
overload-classified error while a later iteration remains waits
`initialDelay * 2 ^ i` and continues; any other failure is rethrown at once.
The `fuel = 0` case models the unreachable `throw lastError!` after the loop
(reached only when `maxRetries = 0`). -/
def retryGo {α : Type} (script : Nat → Except String α) (initialDelay : Nat) :
    Nat → Nat → RetryOut α
  | _, 0 => ⟨.error "no attempts were made", [], 0⟩
  | i, fuel + 1 =>
    match script i with
    | .ok a => ⟨.ok a, [], 1⟩
    | .error e =>
      if isOverloaded e ∧ 0 < fuel then
        let r := retryGo script initialDelay (i + 1) fuel
        ⟨r.result, initialDelay * 2 ^ i :: r.delays, r.calls + 1⟩
      else
        ⟨.error e, [], 1⟩

/-- `retryWithBackoff(fn, maxRetries, initialDelay)` where the `i`-th call of
`fn` yields `script i`. -/
def retryWithBackoff {α : Type} (script : Nat → Except String α)
    (maxRetries initialDelay : Nat) : RetryOut α :=
  retryGo script initialDelay 0 maxRetries

/-- Whitespace characters recognised by `String.prototype.trim` and by the
JSON grammar (the forms occurring in this codebase). -/
def isWsChar (c : Char) : Bool :=
  c = ' ' || c = '\n' || c = '\t' || c = '\r'

/-- `s.trim()` from JavaScript. -/
def jsTrim (s : String) : String :=
  (((s.toList.dropWhile isWsChar).reverse.dropWhile isWsChar).reverse).asString

/-- Decimal value of a digit run. -/
def digitsToNat (ds : List Char) : Nat :=
  ds.foldl (fun n c => n * 10 + (c.toNat - 48)) 0

/-- `parseInt(str)` with radix 10: leading whitespace, optional sign, then a
maximal digit run; `none` models `NaN`.  (The hexadecimal `0x` prefix of the
JavaScript default radix is not modelled; no input in this codebase uses it.) -/
def parseIntStr (s : String) : Option Int :=
  match s.toList.dropWhile isWsChar with
  | '-' :: rest =>
    match rest.takeWhile Char.isDigit with
    | [] => none
    | ds => some (-(digitsToNat ds : Int))
  | '+' :: rest =>
    match rest.takeWhile Char.isDigit with
    | [] => none
    | ds => some (digitsToNat ds : Int)
  | rest =>
    match rest.takeWhile Char.isDigit with
    | [] => none
    | ds => some (digitsToNat ds : Int)

/-- Left brace character (written via its code point). -/
def lbrace : Char := Char.ofNat 123

/-- Right brace character (written via its code point). -/
def rbrace : Char := Char.ofNat 125

/-- String coercion of a JavaScript value at bounded depth, as performed by
`parseInt`'s argument conversion: arrays render as their comma-joined elements
(`null`/`undefined` elements render empty), plain objects render as
"[object Object]". -/
def jsToStringFuel : Nat → Json → String
  | _, .undefined => "undefined"
  | _, .null => "null"
  | _, .bool b => if b then "true" else "false"
  | _, .num n => toString n
  | _, .str s => s
  | _, .obj _ => "[object Object]"
  | 0, .arr _ => ""
  | fuel + 1, .arr xs =>
    String.intercalate ","
      (xs.map fun x =>
        match x with
        | .null => ""
        | .undefined => ""
        | v => jsToStringFuel fuel v)

/-- String coercion of a JavaScript value (`String(v)`).  The fuel bounds only
the array-nesting depth; `parseJson` below bounds nesting by the input length,
so this bound is never reached by any value arising in this development. -/
def jsToString (v : Json) : String :=
  jsToStringFuel 1000000000 v

/-- Hexadecimal digit test. -/
def isHexDigitChar (c : Char) : Bool :=
  c.isDigit || (97 ≤ c.toNat && c.toNat ≤ 102) || (65 ≤ c.toNat && c.toNat ≤ 70)

/-- JSON string literal body: consumes up to the closing quote, decoding escape
sequences; the opening quote has already been consumed.  Returns the decoded
characters and the rest of the input. -/
def pStrAux : Nat → List Char → List Char → Except String (List Char × List Char)
  | 0, _, _ => .error "SyntaxError: string literal too long"
  | _ + 1, _, [] => .error "SyntaxError: unterminated string literal"
  | fuel + 1, acc, c :: rest =>
    if c = '\"' then .ok (acc.reverse, rest)
    else if c = '\\' then
      match rest with
      | [] => .error "SyntaxError: unterminated escape"
      | e :: rest2 =>
        if e = 'n' then pStrAux fuel ('\n' :: acc) rest2
        else if e = 't' then pStrAux fuel ('\t' :: acc) rest2
        else if e = 'r' then pStrAux fuel ('\r' :: acc) rest2
        else if e = 'b' then pStrAux fuel (Char.ofNat 8 :: acc) rest2
        else if e = 'f' then pStrAux fuel (Char.ofNat 12 :: acc) rest2
        else if e = '\"' then pStrAux fuel ('\"' :: acc) rest2
        else if e = '\\' then pStrAux fuel ('\\' :: acc) rest2
        else if e = '/' then pStrAux fuel ('/' :: acc) rest2
        else if e = 'u' then
          match rest2 with
          | h1 :: h2 :: h3 :: h4 :: rest3 =>
            match isHexDigitChar h1, isHexDigitChar h2, isHexDigitChar h3, isHexDigitChar h4 with
            | true, true, true, true =>
              let hv : Char → Nat := fun c =>
                if c.isDigit then c.toNat - 48
                else if c.toNat ≥ 97 then c.toNat - 87
                else c.toNat - 55
              pStrAux fuel
                (Char.ofNat (((hv h1 * 16 + hv h2) * 16 + hv h3) * 16 + hv h4) :: acc) rest3
            | _, _, _, _ => .error "SyntaxError: invalid unicode escape"
          | _ => .error "SyntaxError: invalid unicode escape"
        else .error "SyntaxError: invalid escape"
    else pStrAux fuel (c :: acc) rest

/-- JSON number literal.  Model restriction: only integer literals are
accepted (fractions and exponents are rejected rather than approximated). -/
def pNumber (cs : List Char) : Except String (Json × List Char) :=
  let (neg, cs1) : Bool × List Char :=
    match cs with
    | '-' :: r => (true, r)
    | _ => (false, cs)
  match cs1.takeWhile Char.isDigit with
  | [] => .error "SyntaxError: invalid number"
  | ds =>
    match cs1.drop ds.length with
    | '.' :: _ => .error "SyntaxError: non-integer literals are outside this model"
    | 'e' :: _ => .error "SyntaxError: exponent literals are outside this model"
    | 'E' :: _ => .error "SyntaxError: exponent literals are outside this model"
    | rest => .ok (.num (if neg then -(digitsToNat ds : Int) else (digitsToNat ds : Int)), rest)

mutual

/-- JSON value parser (recursive descent; `fuel` bounds the recursion depth
and is always sufficient when instantiated with the input length). -/
def pValue : Nat → List Char → Except String (Json × List Char)
  | 0, _ => .error "SyntaxError: input too deeply nested"
  | fuel + 1, cs =>
    match cs.dropWhile isWsChar with
    | [] => .error "SyntaxError: unexpected end of JSON input"
    | c :: rest =>
      if c = lbrace then
        match rest.dropWhile isWsChar with
        | c2 :: rest2 =>
          if c2 = rbrace then .ok (.obj [], rest2)
          else pMembers fuel [] (c2 :: rest2)
        | [] => .error "SyntaxError: unterminated object"
      else if c = '[' then
        match rest.dropWhile isWsChar with
        | ']' :: rest2 => .ok (.arr [], rest2)
        | rest2 => pItems fuel [] rest2
      else if c = '\"' then
        match pStrAux (rest.length + 1) [] rest with
        | .error e => .error e
        | .ok (s, rest2) => .ok (.str s.asString, rest2)
      else
        match c :: rest with
        | 't' :: 'r' :: 'u' :: 'e' :: rest2 => .ok (.bool true, rest2)
        | 'f' :: 'a' :: 'l' :: 's' :: 'e' :: rest2 => .ok (.bool false, rest2)
        | 'n' :: 'u' :: 'l' :: 'l' :: rest2 => .ok (.null, rest2)
        | cs2 => pNumber cs2

/-- Members of a JSON object after the opening brace (at least one member).
Duplicate keys follow `JSON.parse`: the later value wins, the key keeps its
first position. -/
def pMembers : Nat → List (String × Json) → List Char → Except String (Json × List Char)
  | 0, _, _ => .error "SyntaxError: input too deeply nested"
  | fuel + 1, acc, cs =>
    match cs.dropWhile isWsChar with
    | '\"' :: rest =>
      match pStrAux (rest.length + 1) [] rest with
      | .error e => .error e
      | .ok (k, rest2) =>
        match rest2.dropWhile isWsChar with
        | ':' :: rest3 =>
          match pValue fuel rest3 with
          | .error e => .error e
          | .ok (v, rest4) =>
            let acc2 := setKey acc k.asString v
            match rest4.dropWhile isWsChar with
            | ',' :: rest5 => pMembers fuel acc2 rest5
            | c :: rest5 =>
              if c = rbrace then .ok (.obj acc2, rest5)
              else .error "SyntaxError: expected comma or closing brace"
            | [] => .error "SyntaxError: unterminated object"
        | _ => .error "SyntaxError: expected colon"
    | _ => .error "SyntaxError: expected string key"

/-- Items of a JSON array after the opening bracket (at least one item). -/
def pItems : Nat → List Json → List Char → Except String (Json × List Char)
  | 0, _, _ => .error "SyntaxError: input too deeply nested"
  | fuel + 1, acc, cs =>
    match pValue fuel cs with
    | .error e => .error e
    | .ok (v, rest) =>
      match rest.dropWhile isWsChar with
      | ',' :: rest2 => pItems fuel (acc ++ [v]) rest2
      | ']' :: rest2 => .ok (.arr (acc ++ [v]), rest2)
      | _ => .error "SyntaxError: expected comma or closing bracket"

end

/-- `JSON.parse(s)` (with the integer-only number restriction noted above). -/
def parseJson (s : String) : Except String Json :=
  match pValue (s.length + 1) s.toList with
  | .error e => .error e
  | .ok (j, rest) =>
    if (rest.dropWhile isWsChar).isEmpty then .ok j
    else .error "SyntaxError: unexpected trailing characters"

/-- One global-regex pass removing every occurrence of `pat` together with an
optional directly following newline — the effect of
`.replace(/pat\n?/g, "")` for the literal fence patterns used in the source.
`fuel` bounds the scan and is sufficient at the input length. -/
def stripAllAux (pat : List Char) : Nat → List Char → List Char
  | 0, s => s
  | _ + 1, [] => []
  | fuel + 1, c :: rest =>
    if pat.isPrefixOf (c :: rest) then
      match (c :: rest).drop pat.length with
      | '\n' :: rem => stripAllAux pat fuel rem
      | rem => stripAllAux pat fuel rem
    else c :: stripAllAux pat fuel rest

/-- `s.replace(/pat\n?/g, "")` for a literal pattern `pat`. -/
def stripAll (s pat : String) : String :=
  (stripAllAux pat.toList (s.length + 1) s.toList).asString

/-- `s.startsWith(pat)` from JavaScript. -/
def startsWithStr (s pat : String) : Bool :=
  pat.toList.isPrefixOf s.toList

/-- The markdown code-fence stripping applied to the model's raw text before
`JSON.parse` in `analyzeFoodImage`. -/
def stripCodeFences (s : String) : String :=
  if startsWithStr s "```json" then stripAll (stripAll s "```json") "```"
  else if startsWithStr s "```" then stripAll s "```"
  else s

/-- The `nutritionalInfo` record of the food-analysis response (dynamic values,
matching the handler's untyped access to the parsed JSON). -/
structure NutritionalInfo where
  protein : Json
  carbs : Json
  fat : Json
  fiber : Json

/-- The value returned by `analyzeFoodImage` (dynamic values: the handler's
TypeScript annotation promises `calories: number`, but nothing enforces it). -/
structure FoodAnalysisResult where
  foodName : Json
  calories : Json
  servingSize : Json
  confidence : Json
  nutritionalInfo : NutritionalInfo
  description : Json

/-- The default-filling return object of `analyzeFoodImage` applied to the
parsed response value (which is never `null`/`undefined` here). -/
def normalizeFoodCore (parsedData : Json) : FoodAnalysisResult :=
  { foodName := jsOr (objGet parsedData "foodName") (.str "Unknown Food")
    calories := jsOr (objGet parsedData "calories") (.num 0)
    servingSize := jsOr (objGet parsedData "servingSize") (.str "Unknown")
    confidence := jsOr (objGet parsedData "confidence") (.str "low")
    nutritionalInfo :=
      { protein := jsOr (optGet (objGet parsedData "nutritionalInfo") "protein") (.str "N/A")
        carbs := jsOr (optGet (objGet parsedData "nutritionalInfo") "carbs") (.str "N/A")
        fat := jsOr (optGet (objGet parsedData "nutritionalInfo") "fat") (.str "N/A")
        fiber := jsOr (optGet (objGet parsedData "nutritionalInfo") "fiber") (.str "N/A") }
    description := jsOr (objGet parsedData "description") (.str "Could not analyze the food.") }

/-- Default filling on the parsed value; property access on `null`/`undefined`
throws a `TypeError` in JavaScript. -/
def normalizeFood : Json → Except String FoodAnalysisResult
  | .null => .error "TypeError: cannot read properties of null"
  | .undefined => .error "TypeError: cannot read properties of undefined"
  | j => .ok (normalizeFoodCore j)

/-- The full response-normalization path of `analyzeFoodImage`: trim, strip
markdown code fences, `JSON.parse`, then fill defaults. -/
def normalizeFoodText (text : String) : Except String FoodAnalysisResult :=
  match parseJson (stripCodeFences (jsTrim text)) with
  | .error e => .error e
  | .ok parsedData => normalizeFood parsedData

/-- `Except`-valued map over a list, the effect of `.map` with a callback that
can throw. -/
def mapE {α β : Type} (f : α → Except String β) : List α → Except String (List β)
  | [] => .ok []
  | x :: xs =>
    match f x with
    | .error e => .error e
    | .ok y =>
      match mapE f xs with
      | .error e => .error e
      | .ok ys => .ok (y :: ys)

/-- The per-routine coercion inside `validateWorkoutPlan`:
`sets`/`reps` are kept when `typeof` is number, otherwise `parseInt(...) || default`
(so a failed parse — and a parse yielding `0` — falls back to 3 resp. 10). -/
def fixRoutine (routine : Json) : Json :=
  let sets : Json :=
    match objGet routine "sets" with
    | .num n => .num n
    | v =>
      match parseIntStr (jsToString v) with
      | some k => if k = 0 then .num 3 else .num k
      | none => .num 3
  let reps : Json :=
    match objGet routine "reps" with
    | .num n => .num n
    | v =>
      match parseIntStr (jsToString v) with
      | some k => if k = 0 then .num 10 else .num k
      | none => .num 10
  .obj (setKey (setKey (spreadFields routine) "sets" sets) "reps" reps)

/-- The per-exercise step of `validateWorkoutPlan`: `exercise.routines.map(...)`
throws when `routines` is missing or not an array, and property access throws
when the exercise itself is `null`/`undefined`. -/
def fixExercise : Json → Except String Json
  | .null => .error "TypeError: cannot read properties of null"
  | .undefined => .error "TypeError: cannot read properties of undefined"
  | exercise =>
    match objGet exercise "routines" with
    | .arr rs => .ok (.obj (setKey (spreadFields exercise) "routines" (.arr (rs.map fixRoutine))))
    | _ => .error "TypeError: exercise.routines.map is not a function"

/-- `validateWorkoutPlan` from convex/plans.ts: when `plan.exercises` is truthy
it is mapped through the routine coercion (throwing on non-array values),
otherwise the plan is returned unchanged. -/
def validateWorkoutPlan : Json → Except String Json
  | .null => .error "TypeError: cannot read properties of null"
  | .undefined => .error "TypeError: cannot read properties of undefined"
  | plan =>
    if jsTruthy (objGet plan "exercises") then
      match objGet plan "exercises" with
      | .arr es =>
        match mapE fixExercise es with
        | .error e => .error e
        | .ok es2 => .ok (.obj (setKey (spreadFields plan) "exercises" (.arr es2)))
      | _ => .error "TypeError: plan.exercises.map is not a function"
    else .ok plan

/-- The per-meal re-projection of `validateDietPlan`: keep exactly `name` and
`foods`; property access throws on `null`/`undefined` meals. -/
def fixMeal : Json → Except String Json
  | .null => .error "TypeError: cannot read properties of null"
  | .undefined => .error "TypeError: cannot read properties of undefined"
  | meal => .ok (.obj [("name", objGet meal "name"), ("foods", objGet meal "foods")])

/-- `validateDietPlan` from convex/plans.ts: coerce `dailyCalories` (default
2000 on parse failure or zero), then `plan.meals.map(...)` — which throws when
`meals` is missing or not an array. -/
def validateDietPlan : Json → Except String Json
  | .null => .error "TypeError: cannot read properties of null"
  | .undefined => .error "TypeError: cannot read properties of undefined"
  | plan =>
    let dailyCalories : Json :=
      match objGet plan "dailyCalories" with
      | .num n => .num n
      | v =>
        match parseIntStr (jsToString v) with
        | some k => if k = 0 then .num 2000 else .num k
        | none => .num 2000
    match objGet plan "meals" with
    | .arr ms =>
      match mapE fixMeal ms with
      | .error e => .error e
      | .ok ms2 => .ok (.obj [("dailyCalories", dailyCalories), ("meals", .arr ms2)])
    | _ => .error "TypeError: plan.meals.map is not a function"

/-- Discriminator for `Except` results (did the computation return normally?). -/
def exceptIsOk {ε α : Type} : Except ε α → Bool
  | .ok _ => true
  | .error _ => false

/-- A stored plan document ("plans" table): the system fields relevant to the
activation invariant plus the inserted payload. -/
structure PlanDoc where
  id : Nat
  userId : String
  name : String
  workoutPlan : Json
  dietPlan : Json
  isActive : Bool

/-- The "plans" table: documents in insertion order plus the next fresh id. -/
structure PlansDB where
  plans : List PlanDoc
  nextId : Nat

/-- The query filter of `createPlan`: plans of this user with `isActive = true`. -/
def isActiveFor (userId : String) (p : PlanDoc) : Bool :=
  p.userId == userId && p.isActive

/-- `ctx.db.patch(plan._id, { isActive: false })`. -/
def deactivate (p : PlanDoc) : PlanDoc :=
  { p with isActive := false }

/-- The patch loop of `createPlan`: each collected id is patched in turn. -/
def patchDeactivate (plans : List PlanDoc) (targets : List Nat) : List PlanDoc :=
  targets.foldl (fun ps tid => ps.map fun p => if p.id == tid then deactivate p else p) plans

/-- `createPlan` from convex/plans.ts: collect this user's active plans, patch
each to `isActive = false`, then insert the new document.  Returns the new
state and the inserted id. -/
def createPlan (db : PlansDB) (userId name : String) (workoutPlan dietPlan : Json)
    (isActive : Bool) : PlansDB × Nat :=
  let targets := ((db.plans.filter (isActiveFor userId)).map (fun p => p.id))
  let ps := patchDeactivate db.plans targets
  let newPlan : PlanDoc :=
    { id := db.nextId, userId := userId, name := name,
      workoutPlan := workoutPlan, dietPlan := dietPlan, isActive := isActive }
  ({ plans := ps ++ [newPlan], nextId := db.nextId + 1 }, db.nextId)

/-- `n` sequential `createPlan` calls for one owner, each with `isActive = true`. -/
def createActiveMany (db : PlansDB) (userId name : String) (workoutPlan dietPlan : Json) :
    Nat → PlansDB
  | 0 => db
  | n + 1 => (createPlan (createActiveMany db userId name workoutPlan dietPlan n)
      userId name workoutPlan dietPlan true).1

/-- A persisted conversation turn ("chatMessages" table), in insertion order. -/
structure ChatMsg where
  role : String
  content : String

/-- Index clamping of `Array.prototype.slice`: negative indices count from the
end, clamped to `[0, len]`. -/
def jsSliceBound (len : Nat) (i : Int) : Nat :=
  if i < 0 then ((len : Int) + i).toNat else min i.toNat len

/-- `l.slice(a, b)` from JavaScript. -/
def jsSlice {α : Type} (l : List α) (a b : Int) : List α :=
  (l.take (jsSliceBound l.length b)).drop (jsSliceBound l.length a)

/-- The per-message mapping building Gemini history entries: role "user" stays,
everything else becomes "model"; the payload is the message text. -/
def toGeminiTurn (m : ChatMsg) : String × String :=
  (if m.role == "user" then "user" else "model", m.content)

/-- `messages.slice(-11, -1).map(...)` from `generateResponse`: the
conversation-history window handed to the model. -/
def buildConversationHistory (messages : List ChatMsg) : List (String × String) :=
  (jsSlice messages (-11) (-1)).map toGeminiTurn

/-- The catch-block classification of `generateResponse` (messages.ts). -/
def wrapChatError (errorMessage : String) : String :=
  if isOverloaded errorMessage then
    "The AI service is currently busy. Please try again in a few moments."
  else if containsSub errorMessage "API key" || containsSub errorMessage "API_KEY_INVALID" then
    "API configuration error. Please contact support."
  else if containsSub errorMessage "quota" || containsSub errorMessage "QUOTA_EXCEEDED" then
    "API quota exceeded. Please try again later."
  else
    "Failed to generate AI response: " ++ errorMessage

/-- The catch-block classification of `analyzeFoodImage` (the retry/fallback
variant of the handler). -/
def wrapFoodError (errorMessage : String) : String :=
  if isOverloaded errorMessage then
    "The AI service is currently busy. Please try again in a few moments."
  else if containsSub errorMessage "API key" || containsSub errorMessage "API_KEY_INVALID" then
    "API configuration error. Please contact support."
  else if containsSub errorMessage "quota" || containsSub errorMessage "QUOTA_EXCEEDED" then
    "API quota exceeded. Please try again later."
  else if containsSub errorMessage "SAFETY" then
    "The image was blocked by safety filters. Please try a different image."
  else if containsSub errorMessage "invalid" && containsSub errorMessage "image" then
    "Invalid image format. Please try a different image."
  else
    "Failed to analyze the image: " ++ errorMessage

/-- The inner `generateContent` closure shared by the chat and food handlers:
try the primary model; if its error is overload-classified, the fallback
model's result (or error) is returned, otherwise the primary error is
rethrown.  `primary`/`fallback` are the outcomes the two model calls would
produce on this attempt. -/
def generateContentChat (primary fallback : Except String String) : Except String String :=
  match primary with
  | .ok s => .ok s
  | .error primaryError =>
    if isOverloaded primaryError then fallback else .error primaryError

/-- `process.env.GEMINI_API_KEY` falsiness (`undefined` or the empty string). -/
def keyMissing : Option String → Bool
  | none => true
  | some s => s == ""

/-- Observable outcome of one `generateResponse` action run: the returned or
thrown value, how many times the retried `generateContent` closure ran, the
stored messages afterwards, and the history window handed to the model. -/
structure ChatRunOut where
  result : Except String String
  netCalls : Nat
  msgs : List ChatMsg
  history : List (String × String)

/-- The `generateResponse` action (messages.ts): fail fast when the credential
is absent; otherwise persist the user turn, build the sliding history window,
run the retried model call, persist the assistant turn on success, and map
errors through the catch-block classification.  `script i` is the outcome of
the `i`-th invocation of the `generateContent` closure. -/
def generateResponseRun (geminiApiKey : Option String) (prior : List ChatMsg)
    (userMessage : String) (script : Nat → Except String String) : ChatRunOut :=
  if keyMissing geminiApiKey then
    { result := .error (wrapChatError "GEMINI_API_KEY is not configured in environment variables")
      netCalls := 0, msgs := prior, history := [] }
  else
    let stored := prior ++ [{ role := "user", content := userMessage }]
    let history := buildConversationHistory stored
    let r := retryWithBackoff script 3 2000
    match r.result with
    | .ok aiResponse =>
      { result := .ok aiResponse, netCalls := r.calls
        msgs := stored ++ [{ role := "assistant", content := aiResponse }], history := history }
    | .error e =>
      { result := .error (wrapChatError e), netCalls := r.calls
        msgs := stored, history := history }

/-- The `analyzeFoodImage` action (retry/fallback variant): fail fast when the
credential is absent; otherwise run the retried model call and normalize its
text.  Returns the outcome and the number of `generateContent` invocations. -/
def analyzeFoodImageRun (geminiApiKey : Option String)
    (script : Nat → Except String String) : Except String FoodAnalysisResult × Nat :=
  if keyMissing geminiApiKey then
    (.error (wrapFoodError "GEMINI_API_KEY is not configured in environment variables"), 0)
  else
    let r := retryWithBackoff script 3 2000
    match r.result with
    | .error e => (.error (wrapFoodError e), r.calls)
    | .ok text =>
      match normalizeFoodText text with
      | .ok res => (.ok res, r.calls)
      | .error e => (.error (wrapFoodError e), r.calls)

/-- The `generatePlan` action (convex/plans.ts).  The source performs NO
credential check and wraps nothing in try/catch: the workout call, `JSON.parse`,
validation, the diet call, and the insert run in sequence, and any failure
propagates raw.  `workoutResp`/`dietResp` are the outcomes of the two provider
calls; the returned `Nat` counts the provider calls made. -/
def generatePlanRun (_geminiApiKey : Option String) (userId fitnessGoal dateStr : String)
    (workoutResp dietResp : Except String String) (db : PlansDB) :
    Except String Nat × Nat × PlansDB :=
  match workoutResp with
  | .error e => (.error e, 1, db)
  | .ok workoutPlanText =>
    match parseJson workoutPlanText with
    | .error e => (.error e, 1, db)
    | .ok wp =>
      match validateWorkoutPlan wp with
      | .error e => (.error e, 1, db)
      | .ok workoutPlan =>
        match dietResp with
        | .error e => (.error e, 2, db)
        | .ok dietPlanText =>
          match parseJson dietPlanText with
          | .error e => (.error e, 2, db)
          | .ok dp =>
            match validateDietPlan dp with
            | .error e => (.error e, 2, db)
            | .ok dietPlan =>
              let name := fitnessGoal ++ " Plan - " ++ dateStr
              let created := createPlan db userId name workoutPlan dietPlan true
              (.ok created.2, 2, created.1)

/-! ## Concrete inputs used by witnesses and counterexamples -/

/-- Concrete script for the C1 witness: 503, then overloaded, then success. -/
def scriptC1 : Nat → Except String Nat
  | 0 => .error "Error: 503 Service Unavailable"
  | 1 => .error "Error: the model is overloaded"
  | _ => .ok 42

/-- The per-attempt error messages of `scriptC1`. -/
def esC1 : Nat → String
  | 0 => "Error: 503 Service Unavailable"
  | _ => "Error: the model is overloaded"

/-- Concrete script for the C2 witness: a non-transient failure. -/
def scriptC2 : Nat → Except String Nat
  | _ => .error "Error: Request contains an invalid argument."

/-- Boolean membership in a list of ids. -/
def natMem (x : Nat) : List Nat → Bool
  | [] => false
  | y :: ys => x == y || natMem x ys

/-- Initial table for the C4 witness: one pre-existing active plan. -/
def dbC4 : PlansDB :=
  { plans := [{ id := 0, userId := "alice", name := "Old Plan",
                workoutPlan := .null, dietPlan := .null, isActive := true }]
    nextId := 1 }

/-- First element of a JavaScript array value (`undefined` otherwise). -/
def firstElem : Json → Json
  | .arr (x :: _) => x
  | _ => .undefined

/-- A workout plan whose only routine has the number 0 as `sets`. -/
def planC7 : Json :=
  Json.obj [("schedule", Json.arr [Json.str "Monday"]),
            ("exercises", Json.arr [Json.obj [("day", Json.str "Monday"),
              ("routines", Json.arr [Json.obj [("name", Json.str "Plank"),
                ("sets", Json.num 0), ("reps", Json.num 10)]])]])]

/-- The routine of the C7 scenario: numeric sets, free-text reps. -/
def routineC7 : Json :=
  Json.obj [("name", Json.str "Plank"), ("sets", Json.num 3),
            ("reps", Json.str "As many as possible")]

/-- Twelve prior persisted turns for the C9 witness. -/
def priorC9 : List ChatMsg :=
  [{ role := "user", content := "m1" }, { role := "assistant", content := "m2" },
   { role := "user", content := "m3" }, { role := "assistant", content := "m4" },
   { role := "user", content := "m5" }, { role := "assistant", content := "m6" },
   { role := "user", content := "m7" }, { role := "assistant", content := "m8" },
   { role := "user", content := "m9" }, { role := "assistant", content := "m10" },
   { role := "user", content := "m11" }, { role := "assistant", content := "m12" }]

/-- Workout-plan response used as the provider outcome in the C8 theorem. -/
def wTextC8 : String :=
  "\x7b\"schedule\":[\"Monday\"],\"exercises\":[\x7b\"day\":\"Monday\",\"routines\":[\x7b\"name\":\"Pushups\",\"sets\":3,\"reps\":10\x7d]\x7d]\x7d"

/-- Diet-plan response used as the provider outcome in the C8 theorem. -/
def dTextC8 : String :=
  "\x7b\"dailyCalories\":2000,\"meals\":[\x7b\"name\":\"Breakfast\",\"foods\":[\"Oats\"]\x7d]\x7d"

/-! ## Retry-loop lemmas -/

/-- General behaviour of the retry loop on a script with `k` consecutive
overload-classified failures followed by a success, starting at attempt `i`
with `fuel` remaining iterations. -/
theorem retryGo_transient_spec {α : Type} (script : Nat → Except String α)
    (es : Nat → String) (d : Nat) (a : α) :
    ∀ (k i fuel : Nat), k < fuel →
      (∀ j, j < k → script (i + j) = .error (es (i + j)) ∧ isOverloaded (es (i + j)) = true) →
      script (i + k) = .ok a →
      retryGo script d i fuel =
        ⟨.ok a, (List.range k).map (fun j => d * 2 ^ (i + j)), k + 1⟩ := by
  intro k
  induction k with
  | zero =>
    intro i fuel hk _ hok
    match fuel, hk with
    | fuel + 1, _ =>
      simp only [Nat.add_zero] at hok
      simp [retryGo, hok]
  | succ k ih =>
    intro i fuel hk hfail hok
    match fuel, hk with
    | fuel + 1, hk =>
      have h0 := hfail 0 (Nat.succ_pos k)
      simp only [Nat.add_zero] at h0
      have hfuel : 0 < fuel := by omega
      have hrec := ih (i + 1) fuel (by omega)
        (fun j hj => by
          have hj1 := hfail (j + 1) (by omega)
          have e1 : i + (j + 1) = i + 1 + j := by omega
          rwa [e1] at hj1)
        (by
          have e1 : i + (k + 1) = i + 1 + k := by omega
          rwa [e1] at hok)
      have hlist : (List.range (k + 1)).map (fun j => d * 2 ^ (i + j))
          = d * 2 ^ i :: (List.range k).map (fun j => d * 2 ^ (i + 1 + j)) := by
        rw [List.range_succ_eq_map, List.map_cons, List.map_map]
        refine congrArg₂ _ (by rw [Nat.add_zero]) ?_
        apply List.map_congr_left
        intro j _
        simp only [Function.comp_apply]
        have e1 : i + Nat.succ j = i + 1 + j := by omega
        rw [e1]
      rw [hlist]
      simp [retryGo, h0.1, h0.2, hfuel, hrec]

/-- A first attempt failing with a non-overload-classified error is rethrown
at once: no wait, a single call. -/
theorem retry_error_not_overloaded_immediate {α : Type} (script : Nat → Except String α)
    (e : String) (h1 : script 0 = .error e) (h2 : isOverloaded e = false) :
    retryWithBackoff script 3 2000 = ⟨.error e, [], 1⟩ := by
  rw [retryWithBackoff, show (3 : Nat) = 2 + 1 from rfl]
  simp [retryGo, h1, h2]

/-- C1: with maxRetries = 3 and initialDelay = 2000, any script of `k < 3`
consecutive overload-classified failures followed by a success makes the
retry loop return the success value after `k + 1` calls, having waited
`2000 * 2 ^ i` before the `(i+1)`-th attempt (so delays 2000 ms then 4000 ms
before the third and final attempt). -/
theorem retryWithBackoff_transient_then_success {α : Type} (script : Nat → Except String α)
    (es : Nat → String) (k : Nat) (a : α) (hk : k < 3)
    (hfail : ∀ j, j < k → script j = .error (es j) ∧ isOverloaded (es j) = true)
    (hok : script k = .ok a) :
    retryWithBackoff script 3 2000 =
      ⟨.ok a, (List.range k).map (fun i => 2000 * 2 ^ i), k + 1⟩ := by
  have h := retryGo_transient_spec script es 2000 a k 0 3 hk
    (by intro j hj; simpa using hfail j hj) (by simpa using hok)
  simpa [retryWithBackoff] using h

/-- Witness for C1: two transient failures then a success yields the success
value after delays of 2000 ms and 4000 ms. -/
theorem retryWithBackoff_transient_then_success_witness :
    retryWithBackoff scriptC1 3 2000 = ⟨.ok 42, [2000, 4000], 3⟩ :=
  retryWithBackoff_transient_then_success scriptC1 esC1 2 42 (by decide)
    (fun j hj => by
      match j, hj with
      | 0, _ => exact ⟨rfl, by decide⟩
      | 1, _ => exact ⟨rfl, by decide⟩)
    rfl

/-- C2: an error whose message contains neither "overloaded" nor "503" is
propagated immediately: exactly one call to the wrapped function, no delay. -/
theorem retryWithBackoff_nontransient_immediate {α : Type} (script : Nat → Except String α)
    (e : String) (h1 : script 0 = .error e) (h2 : isOverloaded e = false) :
    retryWithBackoff script 3 2000 = ⟨.error e, [], 1⟩ :=
  retry_error_not_overloaded_immediate script e h1 h2

/-- Witness for C2: a non-transient error escapes after one call and no delay. -/
theorem retryWithBackoff_nontransient_immediate_witness :
    retryWithBackoff scriptC2 3 2000 =
      ⟨.error "Error: Request contains an invalid argument.", [], 1⟩ :=
  retryWithBackoff_nontransient_immediate scriptC2 _ rfl (by decide)

/-- C10: when the primary call fails with an overload-classified error and the
fallback call then fails with a non-overload error, the retry loop sees — and
classifies — the fallback's error: it propagates immediately, with no delay
and a single invocation of the composed closure. -/
theorem generateContent_fallback_error_is_classified (pe fe : String)
    (hp : isOverloaded pe = true) (hf : isOverloaded fe = false) :
    retryWithBackoff (fun _ => generateContentChat (.error pe) (.error fe)) 3 2000 =
      ⟨.error fe, [], 1⟩ := by
  have hgc : generateContentChat (.error pe) (.error fe) = .error fe := by
    simp [generateContentChat, hp]
  exact retry_error_not_overloaded_immediate _ fe (by simp [hgc]) hf

/-- Witness for C10: overloaded primary, invalid-argument fallback — the
fallback's error is the one that escapes, with no retry. -/
theorem generateContent_fallback_error_is_classified_witness :
    retryWithBackoff
      (fun _ => generateContentChat (.error "Error: 503 Service Unavailable")
        (.error "Error: Request contains an invalid argument.")) 3 2000 =
      ⟨.error "Error: Request contains an invalid argument.", [], 1⟩ :=
  generateContent_fallback_error_is_classified _ _ (by decide) (by decide)

/-! ## Plan-activation invariant -/

theorem natMem_eq_true_of_mem {x : Nat} : ∀ {xs : List Nat}, x ∈ xs → natMem x xs = true := by
  intro xs hx
  induction xs with
  | nil => cases hx
  | cons y ys ih =>
    rcases List.mem_cons.mp hx with h | h
    · simp [natMem, h]
    · simp [natMem, ih h]

theorem deactivate_id (p : PlanDoc) : (deactivate p).id = p.id := rfl

theorem deactivate_deactivate (p : PlanDoc) : deactivate (deactivate p) = deactivate p := rfl

/-- The patch loop of `createPlan` acts like a single pass that deactivates
exactly the documents whose id was collected. -/
theorem patchDeactivate_eq_map (targets : List Nat) :
    ∀ plans : List PlanDoc,
      patchDeactivate plans targets =
        plans.map (fun p => if natMem p.id targets then deactivate p else p) := by
  induction targets with
  | nil =>
    intro plans
    simp [patchDeactivate, natMem]
  | cons t ts ih =>
    intro plans
    have h1 : patchDeactivate plans (t :: ts)
        = patchDeactivate (plans.map fun p => if p.id == t then deactivate p else p) ts := rfl
    rw [h1, ih, List.map_map]
    apply List.map_congr_left
    intro p _
    simp only [Function.comp_apply]
    cases hpt : (p.id == t) with
    | true =>
      have : natMem p.id (t :: ts) = true := by simp [natMem, hpt]
      rw [this]
      simp only [if_true]
      by_cases h2 : natMem (deactivate p).id ts = true
      · rw [if_pos h2, deactivate_deactivate]
      · rw [if_neg h2]
    | false =>
      have : natMem p.id (t :: ts) = natMem p.id ts := by simp [natMem, hpt]
      rw [this]
      simp

/-- One `createPlan` call with `isActive = true` leaves exactly one active plan
for that owner: the newly inserted document. -/
theorem createPlan_active_unique (db : PlansDB) (userId name : String) (w d : Json) :
    (createPlan db userId name w d true).1.plans.filter (isActiveFor userId) =
      [{ id := db.nextId, userId := userId, name := name,
         workoutPlan := w, dietPlan := d, isActive := true }] := by
  unfold createPlan
  simp only [List.filter_append]
  rw [patchDeactivate_eq_map]
  have hnew : isActiveFor userId
      { id := db.nextId, userId := userId, name := name,
        workoutPlan := w, dietPlan := d, isActive := true } = true := by
    unfold isActiveFor
    simp
  have hnil : (db.plans.map
      (fun p => if natMem p.id ((db.plans.filter (isActiveFor userId)).map (fun p => p.id))
        then deactivate p else p)).filter (isActiveFor userId) = [] := by
    rw [List.filter_eq_nil_iff]
    intro q hq
    obtain ⟨p, hp, rfl⟩ := List.mem_map.mp hq
    cases hnm : natMem p.id ((db.plans.filter (isActiveFor userId)).map (fun p => p.id)) with
    | true =>
      simp only [hnm, if_true]
      simp [isActiveFor, deactivate]
    | false =>
      simp only [hnm, Bool.false_eq_true, if_false]
      intro hact
      have hmem : p.id ∈ (db.plans.filter (isActiveFor userId)).map (fun p => p.id) :=
        List.mem_map_of_mem _ (List.mem_filter.mpr ⟨hp, hact⟩)
      rw [natMem_eq_true_of_mem hmem] at hnm
      cases hnm
  rw [hnil]
  simp [hnew]

/-- C4: after `n ≥ 1` sequential `createPlan` calls for one owner, each with
`isActive = true`, exactly one plan of that owner is active — the most
recently inserted document (the last element of the table, carrying the
freshest id). -/
theorem createPlan_activation_invariant (db : PlansDB) (userId name : String)
    (w d : Json) (n : Nat) (hn : 0 < n) :
    ((createActiveMany db userId name w d n).plans.filter (isActiveFor userId) =
        [{ id := (createActiveMany db userId name w d n).nextId - 1, userId := userId,
           name := name, workoutPlan := w, dietPlan := d, isActive := true }])
    ∧ (createActiveMany db userId name w d n).plans.getLast? =
        some { id := (createActiveMany db userId name w d n).nextId - 1, userId := userId,
               name := name, workoutPlan := w, dietPlan := d, isActive := true } := by
  match n, hn with
  | n + 1, _ =>
    have hstep : createActiveMany db userId name w d (n + 1)
        = (createPlan (createActiveMany db userId name w d n) userId name w d true).1 := rfl
    have hid : (createActiveMany db userId name w d (n + 1)).nextId - 1
        = (createActiveMany db userId name w d n).nextId := by
      rw [hstep]
      simp [createPlan]
    constructor
    · rw [hid, hstep]
      exact createPlan_active_unique (createActiveMany db userId name w d n) userId name w d
    · rw [hid, hstep]
      simp [createPlan]

/-- Witness for C4: two sequential active creations leave exactly one active
plan for the owner — the second one created. -/
theorem createPlan_activation_invariant_witness :
    (createActiveMany dbC4 "alice" "Bulk Plan" .null .null 2).plans.filter (isActiveFor "alice") =
      [{ id := 2, userId := "alice", name := "Bulk Plan",
         workoutPlan := .null, dietPlan := .null, isActive := true }] :=
  (createPlan_activation_invariant dbC4 "alice" "Bulk Plan" .null .null 2 (by decide)).1

/-! ## Normalizer theorems -/

theorem objGetFields_setKey_self (k : String) (v : Json) :
    ∀ fs : List (String × Json), objGetFields (setKey fs k v) k = v := by
  intro fs
  induction fs with
  | nil => simp [setKey, objGetFields]
  | cons p t ih =>
    by_cases h : p.1 = k
    · simp [setKey, h, objGetFields]
    · simp [setKey, h, objGetFields, ih]

theorem objGetFields_setKey_other (k k' : String) (v : Json) (hkk : k ≠ k') :
    ∀ fs : List (String × Json), objGetFields (setKey fs k v) k' = objGetFields fs k' := by
  intro fs
  induction fs with
  | nil => simp [setKey, objGetFields, hkk]
  | cons p t ih =>
    by_cases h : p.1 = k
    · simp [setKey, h, objGetFields, hkk]
    · simp [setKey, h, objGetFields, ih]

theorem jsToString_str (s : String) : jsToString (.str s) = s := rfl

/-- C3 counterexample: the normalizer DOES fail on a malformed (non-JSON)
input — `JSON.parse` raises instead of a structurally complete value being
returned. -/
theorem normalizeFoodText_raises_on_non_json :
    exceptIsOk (normalizeFoodText "not json") = false := rfl

/-- C3 amended: the normalizer is total on well-formed JSON objects, but
raises on unparsable text and on JSON missing the `meals` (diet) or
`routines` (workout) arrays. -/
theorem normalizer_total_only_on_wellformed_objects :
    (∀ fs : List (String × Json),
      normalizeFood (Json.obj fs) = .ok (normalizeFoodCore (Json.obj fs)))
    ∧ exceptIsOk (normalizeFoodText "not json") = false
    ∧ exceptIsOk (validateDietPlan (Json.obj [("dailyCalories", Json.num 1800)])) = false
    ∧ exceptIsOk (validateWorkoutPlan (Json.obj [("exercises",
        Json.arr [Json.obj [("day", Json.str "Monday")]])])) = false :=
  ⟨fun _ => rfl, rfl, rfl, rfl⟩

/-- C5 counterexample: a model response whose `calories` is the string "95" is
passed through unchanged — the result's calories is a string, not a number
(there is no integer coercion in the handler, only `|| 0`). -/
theorem calories_string_passes_through :
    normalizeFoodText "\x7b\"calories\":\"95\"\x7d" =
      .ok { foodName := .str "Unknown Food", calories := .str "95",
            servingSize := .str "Unknown", confidence := .str "low",
            nutritionalInfo := { protein := .str "N/A", carbs := .str "N/A",
                                 fat := .str "N/A", fiber := .str "N/A" },
            description := .str "Could not analyze the food." } := rfl

/-- C5 amended: `calories` falls back to 0 exactly when it is absent or falsy,
and every truthy value — of whatever type — is passed through unchanged. -/
theorem calories_default_no_coercion (j : Json) :
    (objGet j "calories" = Json.undefined → (normalizeFoodCore j).calories = Json.num 0)
    ∧ (jsTruthy (objGet j "calories") = true →
        (normalizeFoodCore j).calories = objGet j "calories")
    ∧ (jsTruthy (objGet j "calories") = false →
        (normalizeFoodCore j).calories = Json.num 0) := by
  refine ⟨fun h => ?_, fun h => ?_, fun h => ?_⟩
  · simp [normalizeFoodCore, jsOr, h, jsTruthy]
  · simp [normalizeFoodCore, jsOr, h]
  · simp [normalizeFoodCore, jsOr, h]

/-- Witness for the amended C5: absent calories becomes 0; a string "95" stays
the string "95". -/
theorem calories_default_no_coercion_witness :
    (normalizeFoodCore (Json.obj [])).calories = Json.num 0
    ∧ (normalizeFoodCore (Json.obj [("calories", Json.str "95")])).calories = Json.str "95" :=
  ⟨(calories_default_no_coercion (Json.obj [])).1 rfl,
   (calories_default_no_coercion (Json.obj [("calories", Json.str "95")])).2.1 rfl⟩

/-- C6: every omitted field of a well-formed JSON object response is populated
with its documented default, and the fenced `\x7b"foodName":"Apple","calories":95\x7d`
scenario normalizes to servingSize "Unknown", confidence "low" and all-N/A
nutritional info. -/
theorem food_normalizer_fills_documented_defaults (fs : List (String × Json)) :
    (objGetFields fs "foodName" = Json.undefined →
      (normalizeFoodCore (Json.obj fs)).foodName = Json.str "Unknown Food")
    ∧ (objGetFields fs "calories" = Json.undefined →
      (normalizeFoodCore (Json.obj fs)).calories = Json.num 0)
    ∧ (objGetFields fs "servingSize" = Json.undefined →
      (normalizeFoodCore (Json.obj fs)).servingSize = Json.str "Unknown")
    ∧ (objGetFields fs "confidence" = Json.undefined →
      (normalizeFoodCore (Json.obj fs)).confidence = Json.str "low")
    ∧ (objGetFields fs "nutritionalInfo" = Json.undefined →
      (normalizeFoodCore (Json.obj fs)).nutritionalInfo =
        { protein := Json.str "N/A", carbs := Json.str "N/A",
          fat := Json.str "N/A", fiber := Json.str "N/A" })
    ∧ (objGetFields fs "description" = Json.undefined →
      (normalizeFoodCore (Json.obj fs)).description = Json.str "Could not analyze the food.")
    ∧ normalizeFoodText "```json\n\x7b\"foodName\":\"Apple\",\"calories\":95\x7d\n```" =
        .ok { foodName := .str "Apple", calories := .num 95, servingSize := .str "Unknown",
              confidence := .str "low",
              nutritionalInfo := { protein := .str "N/A", carbs := .str "N/A",
                                   fat := .str "N/A", fiber := .str "N/A" },
              description := .str "Could not analyze the food." } := by
  refine ⟨?_, ?_, ?_, ?_, ?_, ?_, rfl⟩ <;> intro h <;>
    simp [normalizeFoodCore, objGet, jsOr, jsTruthy, optGet, h]

/-- Witness for C6: the empty object receives every documented default. -/
theorem food_normalizer_fills_documented_defaults_witness :
    (normalizeFoodCore (Json.obj [])).servingSize = Json.str "Unknown"
    ∧ (normalizeFoodCore (Json.obj [])).confidence = Json.str "low"
    ∧ (normalizeFoodCore (Json.obj [])).nutritionalInfo =
        { protein := Json.str "N/A", carbs := Json.str "N/A",
          fat := Json.str "N/A", fiber := Json.str "N/A" } :=
  ⟨(food_normalizer_fills_documented_defaults []).2.2.1 rfl,
   (food_normalizer_fills_documented_defaults []).2.2.2.1 rfl,
   (food_normalizer_fills_documented_defaults []).2.2.2.2.1 rfl⟩

/-- C7 counterexample: validation passes the plan through unchanged, so the
delivered routine still has `sets = 0` — number-typed values are preserved
even when they are not ≥ 1. -/
theorem workout_validation_preserves_zero_sets :
    validateWorkoutPlan planC7 = .ok planC7
    ∧ objGet (firstElem (objGet (firstElem (objGet planC7 "exercises")) "routines")) "sets"
        = Json.num 0 :=
  ⟨rfl, rfl⟩

/-- C7 amended: `validateWorkoutPlan`'s routine coercion keeps number-typed
`sets`/`reps` unchanged (whatever their value), replaces values that fail the
numeric parse by the defaults 3 and 10, and uses a successful non-zero parse
result. -/
theorem workout_routine_coercion (r : Json) :
    (∀ n : Int, objGet r "sets" = Json.num n → objGet (fixRoutine r) "sets" = Json.num n)
    ∧ (∀ n : Int, objGet r "reps" = Json.num n → objGet (fixRoutine r) "reps" = Json.num n)
    ∧ (∀ s : String, objGet r "sets" = Json.str s → parseIntStr s = none →
        objGet (fixRoutine r) "sets" = Json.num 3)
    ∧ (∀ s : String, objGet r "reps" = Json.str s → parseIntStr s = none →
        objGet (fixRoutine r) "reps" = Json.num 10)
    ∧ (∀ (s : String) (k : Int), objGet r "reps" = Json.str s → parseIntStr s = some k →
        k ≠ 0 → objGet (fixRoutine r) "reps" = Json.num k) := by
  have houter : ∀ (v : Json) (fs : List (String × Json)),
      objGetFields (setKey fs "reps" v) "sets" = objGetFields fs "sets" :=
    fun v fs => objGetFields_setKey_other "reps" "sets" v (by decide) fs
  refine ⟨?_, ?_, ?_, ?_, ?_⟩
  · intro n h
    simp only [fixRoutine, h]
    simp [objGet, houter, objGetFields_setKey_self]
  · intro n h
    simp only [fixRoutine, h]
    simp [objGet, objGetFields_setKey_self]
  · intro s h hp
    simp only [fixRoutine, h, jsToString_str, hp]
    simp [objGet, houter, objGetFields_setKey_self]
  · intro s h hp
    simp only [fixRoutine, h, jsToString_str, hp]
    simp [objGet, objGetFields_setKey_self]
  · intro s k h hp hk
    simp only [fixRoutine, h, jsToString_str, hp]
    simp [objGet, objGetFields_setKey_self, hk]

/-- Witness for the amended C7: numeric `sets` is preserved and
`reps: "As many as possible"` becomes 10. -/
theorem workout_routine_coercion_witness :
    objGet (fixRoutine routineC7) "sets" = Json.num 3
    ∧ objGet (fixRoutine routineC7) "reps" = Json.num 10 :=
  ⟨(workout_routine_coercion routineC7).1 3 rfl,
   (workout_routine_coercion routineC7).2.2.2.1 "As many as possible" rfl rfl⟩

/-! ## Conversation-history window and credential check -/

/-- `slice(-11, -1)` on a 13-element message list keeps exactly elements
2 through 11 — the 10 turns immediately preceding the newest one. -/
theorem buildConversationHistory_twelve (prior : List ChatMsg) (t : ChatMsg)
    (hlen : prior.length = 12) :
    buildConversationHistory (prior ++ [t]) = (prior.drop 2).map toGeminiTurn := by
  unfold buildConversationHistory jsSlice
  have hlen2 : (prior ++ [t]).length = 13 := by simp [hlen]
  rw [hlen2]
  rw [show jsSliceBound 13 (-1) = 12 from rfl, show jsSliceBound 13 (-11) = 2 from rfl]
  rw [List.take_left' hlen]

/-- C9: with 12 prior persisted turns plus the newly appended user turn, the
history handed to the model is exactly the 10 turns immediately preceding the
newest one (the newest user turn is not part of the history — it is sent as
the current message). -/
theorem generateResponse_history_window (key : String) (prior : List ChatMsg)
    (userMessage : String) (script : Nat → Except String String)
    (hkey : (key == "") = false) (hlen : prior.length = 12) :
    (generateResponseRun (some key) prior userMessage script).history =
      (prior.drop 2).map toGeminiTurn
    ∧ (generateResponseRun (some key) prior userMessage script).history.length = 10 := by
  have hh : (generateResponseRun (some key) prior userMessage script).history =
      buildConversationHistory (prior ++ [{ role := "user", content := userMessage }]) := by
    unfold generateResponseRun
    simp only [keyMissing, hkey, Bool.false_eq_true, if_false]
    cases (retryWithBackoff script 3 2000).result <;> rfl
  refine ⟨?_, ?_⟩
  · rw [hh, buildConversationHistory_twelve prior _ hlen]
  · rw [hh, buildConversationHistory_twelve prior _ hlen]
    simp [hlen]

/-- Witness for C9: turns m3 … m12 form the history; m13 is excluded. -/
theorem generateResponse_history_window_witness :
    (generateResponseRun (some "key") priorC9 "m13" (fun _ => .ok "reply")).history =
      [("user", "m3"), ("model", "m4"), ("user", "m5"), ("model", "m6"),
       ("user", "m7"), ("model", "m8"), ("user", "m9"), ("model", "m10"),
       ("user", "m11"), ("model", "m12")]
    ∧ (generateResponseRun (some "key") priorC9 "m13" (fun _ => .ok "reply")).history.length
        = 10 := by
  have h := generateResponse_history_window "key" priorC9 "m13" (fun _ => .ok "reply")
    (by decide) rfl
  exact ⟨h.1.trans rfl, h.2⟩

/-- C8: with the credential absent, chat generation and food-image analysis
fail fast with the distinguishable configuration message and zero provider
calls — but `generatePlan` performs no credential check at all: it proceeds to
make both provider calls and completes successfully. -/
theorem generatePlan_missing_credential_check :
    (generateResponseRun none [] "hello" (fun _ => .ok "reply")).result =
        .error "Failed to generate AI response: GEMINI_API_KEY is not configured in environment variables"
    ∧ (generateResponseRun none [] "hello" (fun _ => .ok "reply")).netCalls = 0
    ∧ (analyzeFoodImageRun none (fun _ => .ok "\x7b\x7d")).1 =
        .error "Failed to analyze the image: GEMINI_API_KEY is not configured in environment variables"
    ∧ (analyzeFoodImageRun none (fun _ => .ok "\x7b\x7d")).2 = 0
    ∧ (generatePlanRun none "user1" "Muscle Gain" "10/11/2025" (.ok wTextC8) (.ok dTextC8)
        { plans := [], nextId := 0 }).1 = .ok 0
    ∧ (generatePlanRun none "user1" "Muscle Gain" "10/11/2025" (.ok wTextC8) (.ok dTextC8)
        { plans := [], nextId := 0 }).2.1 = 2 :=
  ⟨rfl, rfl, rfl, rfl, rfl, rfl⟩

end FitnessApp
